import Mathlib

/-!
Verification development for the site-health probe suite (`main.py`).

The suite issues a fixed set of GET requests against a configured domain
and asserts on status codes, the `Location` header of redirects, and the
`Strict-Transport-Security` header.  We embed the response data model, the
relevant fragment of CPython's `urllib.parse.urlparse`, the four check
functions (`test_liveness`, `test_http_to_https_redirect`,
`test_non_www_to_www_redirect`, `test_hsts_header`) as pure functions from
the observed responses to an outcome, and the pytest-level suite runner
with its function-scoped `http_session` fixture.

Conventions of the embedding:
- a check is a pure function of the server responses it observes; an
  `assert` chain becomes a sequence of conditionals returning the first
  violated assertion as `Outcome.fail`, a `ValueError` raised by
  `urlparse` becomes `Outcome.error`;
- header lookup is case-insensitive (requests' `CaseInsensitiveDict`),
  with ASCII case folding (all header names involved are ASCII);
- statuses are natural numbers; header maps are association lists whose
  first match wins.
-/

deriving instance DecidableEq for Except

/-- ASCII lower-casing of a string, as Python's `str.lower` behaves on the
ASCII inputs occurring here. -/
def lowerStr (s : String) : String :=
  String.mk (s.data.map Char.toLower)

/-- An HTTP response as observed by the probe: the status code and the
response headers. -/
structure Response where
  status_code : Nat
  headers : List (String × String)
deriving Repr, DecidableEq

/-- Case-insensitive header lookup, modelling `response.headers.get(name)`
on requests' case-insensitive header mapping. -/
def Response.getHeader (r : Response) (name : String) : Option String :=
  (r.headers.find? (fun p => lowerStr p.1 == lowerStr name)).map (fun p => p.2)

/-- The configured bare domain (`NON_WWW_DOMAIN` in `main.py`). -/
def NON_WWW_DOMAIN : String := "kouidri.fr"

/-- The `www`-prefixed domain (`WWW_DOMAIN` in `main.py`). -/
def WWW_DOMAIN : String := "www." ++ NON_WWW_DOMAIN

/-- Target URL `http://www.<domain>` (`HTTP_WWW_URL` in `main.py`). -/
def HTTP_WWW_URL : String := "http://" ++ WWW_DOMAIN

/-- Target URL `https://<domain>` (`HTTPS_NON_WWW_URL` in `main.py`). -/
def HTTPS_NON_WWW_URL : String := "https://" ++ NON_WWW_DOMAIN

/-- Target URL `https://www.<domain>` (`HTTPS_WWW_URL` in `main.py`). -/
def HTTPS_WWW_URL : String := "https://" ++ WWW_DOMAIN

/-- Characters permitted in a URL scheme after the first character, per
CPython `urllib.parse.scheme_chars`. -/
def isSchemeChar (c : Char) : Bool :=
  c.isAlpha || c.isDigit || c = '+' || c = '-' || c = '.'

/-- CPython `urlsplit` removes the bytes tab, CR and LF from the URL
before parsing (`_UNSAFE_URL_BYTES_TO_REMOVE`). -/
def removeUnsafe (l : List Char) : List Char :=
  l.filter (fun c => !(c = '\t' || c = '\n' || c = '\r'))

/-- Scheme extraction of CPython `urlsplit`: if the first colon is at a
positive index, the first character is an ASCII letter and every character
before the colon is a scheme character, the scheme is that prefix
lower-cased and the remainder follows the colon; otherwise the scheme is
empty and the URL is unchanged. -/
def splitScheme (l : List Char) : String × List Char :=
  match l.findIdx? (fun c => c = ':') with
  | none => ("", l)
  | some i =>
    if i = 0 then ("", l)
    else if (l.headD ' ').isAlpha && (l.take i).all isSchemeChar then
      (String.mk ((l.take i).map Char.toLower), l.drop (i + 1))
    else ("", l)

/-- A character ending the netloc portion, per CPython `_splitnetloc`
(the netloc extends to the first of `/`, `?` or `#`). -/
def isNetlocEnd (c : Char) : Bool :=
  c = '/' || c = '?' || c = '#'

/-- Splits a list at the first occurrence of a character, dropping that
character; when absent, the second component is empty (models Python's
`url.split(ch, 1)` guarded by `ch in url`). -/
def splitAtChar (l : List Char) (ch : Char) : List Char × List Char :=
  match l.findIdx? (fun c => c = ch) with
  | none => (l, [])
  | some i => (l.take i, l.drop (i + 1))

/-- Index of the last occurrence of a character (meaningful only when the
character occurs), modelling Python's `str.rfind`. -/
def lastIdxOf (l : List Char) (ch : Char) : Nat :=
  match l.reverse.findIdx? (fun c => c = ch) with
  | none => 0
  | some j => l.length - 1 - j

/-- First index of a character at or after position `start`, modelling
Python's `str.find(ch, start)`. -/
def findIdxFrom (l : List Char) (ch : Char) (start : Nat) : Option Nat :=
  ((l.drop start).findIdx? (fun c => c = ch)).map (fun i => i + start)

/-- CPython `_splitparams`: parameters are split at the first semicolon of
the last path segment (at the first semicolon overall when the path has no
slash). -/
def splitParams (l : List Char) : List Char × List Char :=
  if l.contains '/' then
    match findIdxFrom l ';' (lastIdxOf l '/') with
    | none => (l, [])
    | some i => (l.take i, l.drop (i + 1))
  else
    match l.findIdx? (fun c => c = ';') with
    | none => (l, [])
    | some i => (l.take i, l.drop (i + 1))

/-- Result record of CPython `urlsplit` (scheme, netloc, path, query,
fragment). -/
structure SplitResult where
  scheme : String
  netloc : String
  path : String
  query : String
  fragment : String
deriving Repr, DecidableEq

/-- CPython `urllib.parse.urlsplit` with `allow_fragments=True`, on the
fragment exercised by the probe: unsafe-byte removal, scheme extraction,
netloc extraction after a leading `//` (raising `ValueError` for a netloc
with unbalanced square brackets), then fragment and query splitting.
Later CPython versions additionally validate the contents of a bracketed
IPv6 host; URLs without brackets are unaffected. -/
def urlsplit (url : String) : Except String SplitResult :=
  let l := removeUnsafe url.data
  let sr := splitScheme l
  let nr : List Char × List Char :=
    match sr.2 with
    | '/' :: '/' :: tail =>
      (tail.takeWhile (fun c => !isNetlocEnd c), tail.dropWhile (fun c => !isNetlocEnd c))
    | rest => ([], rest)
  if (nr.1.contains '[' && !nr.1.contains ']') ||
     (nr.1.contains ']' && !nr.1.contains '[') then
    Except.error "Invalid IPv6 URL"
  else
    let fr := splitAtChar nr.2 '#'
    let qr := splitAtChar fr.1 '?'
    Except.ok ⟨sr.1, String.mk nr.1, String.mk qr.1, String.mk qr.2, String.mk fr.2⟩

/-- Result record of CPython `urlparse` (scheme, netloc, path, params,
query, fragment). -/
structure ParseResult where
  scheme : String
  netloc : String
  path : String
  params : String
  query : String
  fragment : String
deriving Repr, DecidableEq

/-- CPython `urllib.parse.urlparse`: `urlsplit` followed by parameter
splitting on the path when it contains a semicolon. -/
def urlparse (url : String) : Except String ParseResult :=
  match urlsplit url with
  | Except.error e => Except.error e
  | Except.ok s =>
    if s.path.data.contains ';' then
      let pr := splitParams s.path.data
      Except.ok ⟨s.scheme, s.netloc, String.mk pr.1, String.mk pr.2, s.query, s.fragment⟩
    else
      Except.ok ⟨s.scheme, s.netloc, s.path, "", s.query, s.fragment⟩

/-- The assertion that failed, carrying the observed value interpolated
into its failure message, one constructor per `assert` in `main.py`. -/
inductive FailReason where
  | livenessStatus (actual : Nat)
  | redirectStatus (actual : Nat)
  | locationMissing
  | schemeNotHttps (actual : String)
  | domainChanged (actual : String)
  | domainNotWww (actual : String)
  | pathChanged (actual : String)
  | hstsOnHttp (value : String)
  | hstsStatus (actual : Nat)
  | hstsMissing
  | hstsNoMaxAge (value : String)
deriving Repr, DecidableEq

/-- Outcome of running one check: all assertions hold, a specific
assertion fails, or a `ValueError` escapes `urlparse`. -/
inductive Outcome where
  | pass
  | fail (r : FailReason)
  | error (msg : String)
deriving Repr, DecidableEq

/-- The failure message of each assertion, as built by the f-strings in
`main.py`. -/
def msgOf : FailReason → String
  | .livenessStatus a =>
      "Unexpected response code: " ++ toString a ++ " (expected 200)"
  | .redirectStatus a =>
      "Unexpected code: " ++ toString a ++ " (strictly expected 301 for a permanent redirect)"
  | .locationMissing => "Location header missing"
  | .schemeNotHttps s => "Redirect to " ++ s ++ ", not HTTPS"
  | .domainChanged n =>
      "Domain changed: " ++ n ++ " (expected " ++ WWW_DOMAIN ++ " to preserve \x27www\x27)"
  | .domainNotWww n =>
      "Domain unchanged or incorrect: " ++ n ++ " (expected " ++ WWW_DOMAIN ++ " with \x27www\x27 added)"
  | .pathChanged p =>
      "Path changed: " ++ p ++ " (expected \x27/\x27 for root)"
  | .hstsOnHttp v =>
      "HSTS present on HTTP: " ++ v ++ " (should be absent to avoid leaks)"
  | .hstsStatus a =>
      "Unexpected HTTPS status: " ++ toString a ++ " (expected 200)"
  | .hstsMissing => "HSTS header missing on HTTPS"
  | .hstsNoMaxAge v =>
      "Invalid HSTS value on HTTPS: " ++ v ++ " (should include \x27max-age\x27)"

/-- `test_liveness`: GET `https://www.<domain>` following redirects must
yield status 200. -/
def test_liveness (https_response : Response) : Outcome :=
  if https_response.status_code = 200 then Outcome.pass
  else Outcome.fail (.livenessStatus https_response.status_code)

/-- `test_http_to_https_redirect`: GET `http://www.<domain>` without
following redirects; asserts status 301, presence of `Location`, then
scheme `https`, netloc `www.<domain>` and path `/` of the parsed
`Location`. -/
def test_http_to_https_redirect (response : Response) : Outcome :=
  if response.status_code = 301 then
    match response.getHeader "Location" with
    | none => Outcome.fail .locationMissing
    | some location =>
      match urlparse location with
      | Except.error e => Outcome.error e
      | Except.ok parsed =>
        if parsed.scheme = "https" then
          if parsed.netloc = WWW_DOMAIN then
            if parsed.path = "/" then Outcome.pass
            else Outcome.fail (.pathChanged parsed.path)
          else Outcome.fail (.domainChanged parsed.netloc)
        else Outcome.fail (.schemeNotHttps parsed.scheme)
  else Outcome.fail (.redirectStatus response.status_code)

/-- `test_non_www_to_www_redirect`: GET `https://<domain>` without
following redirects; same assertion chain as the HTTP redirect check, with
its own netloc failure message. -/
def test_non_www_to_www_redirect (response : Response) : Outcome :=
  if response.status_code = 301 then
    match response.getHeader "Location" with
    | none => Outcome.fail .locationMissing
    | some location =>
      match urlparse location with
      | Except.error e => Outcome.error e
      | Except.ok parsed =>
        if parsed.scheme = "https" then
          if parsed.netloc = WWW_DOMAIN then
            if parsed.path = "/" then Outcome.pass
            else Outcome.fail (.pathChanged parsed.path)
          else Outcome.fail (.domainNotWww parsed.netloc)
        else Outcome.fail (.schemeNotHttps parsed.scheme)
  else Outcome.fail (.redirectStatus response.status_code)

/-- `leadsWith sub l` holds when `sub` is an initial segment of `l`. -/
def leadsWith : List Char → List Char → Bool
  | [], _ => true
  | _ :: _, [] => false
  | a :: s, b :: t => a == b && leadsWith s t

/-- `occursIn sub l` holds when `sub` occurs contiguously inside `l`
(Python's `sub in l` on strings). -/
def occursIn (sub : List Char) : List Char → Bool
  | [] => sub.isEmpty
  | c :: t => leadsWith sub (c :: t) || occursIn sub t

/-- Substring test on strings: `strContains s sub` models Python's
`sub in s`. -/
def strContains (s sub : String) : Bool :=
  occursIn sub.data s.data

/-- The HSTS value validity test of `main.py`:
`"max-age" in hsts_https.lower()`. -/
def hasMaxAge (v : String) : Bool :=
  strContains (lowerStr v) "max-age"

/-- The HTTPS leg of `test_hsts_header`: the final response reached
following redirects from `https://www.<domain>` must have status 200 and
carry a `Strict-Transport-Security` header whose value contains `max-age`
case-insensitively. -/
def hstsHttpsLeg (https_response : Response) : Outcome :=
  if https_response.status_code = 200 then
    match https_response.getHeader "Strict-Transport-Security" with
    | none => Outcome.fail .hstsMissing
    | some v => if hasMaxAge v then Outcome.pass else Outcome.fail (.hstsNoMaxAge v)
  else Outcome.fail (.hstsStatus https_response.status_code)

/-- `test_hsts_header`: the first-hop response to GET
`http://www.<domain>` (no redirects) must not carry
`Strict-Transport-Security`; then the HTTPS leg runs on the final response
to GET `https://www.<domain>` (redirects followed). -/
def test_hsts_header (http_response https_response : Response) : Outcome :=
  match http_response.getHeader "Strict-Transport-Security" with
  | some v => Outcome.fail (.hstsOnHttp v)
  | none => hstsHttpsLeg https_response

/-- A transport session as configured by the `http_session` fixture: an
identity (creation index) and the TLS-verification flag
(`session.verify = True`). -/
structure Session where
  id : Nat
  verify : Bool
deriving Repr, DecidableEq

/-- The `http_session` pytest fixture. It has pytest's default function
scope, so it is invoked afresh for each test: given the next free creation
index it returns a new session with TLS verification enabled and the
incremented index. -/
def http_session (fresh : Nat) : Session × Nat :=
  (⟨fresh, true⟩, fresh + 1)

/-- The server's responses to the three distinct requests the suite
issues, assumed stable across the run: the first-hop (no-redirect)
response for `http://www.<domain>`, the first-hop response for
`https://<domain>`, and the final response (redirects followed) for
`https://www.<domain>`. -/
structure Env where
  httpWwwFirstHop : Response
  httpsBareFirstHop : Response
  httpsWwwFinal : Response
deriving Repr, DecidableEq

/-- Identifier of each of the four checks. -/
inductive CheckId where
  | liveness
  | httpToHttps
  | nonWwwToWww
  | hsts
deriving Repr, DecidableEq

/-- The outcome of one check as a function of the server responses. -/
def outcomeOf : CheckId → Env → Outcome
  | .liveness, e => test_liveness e.httpsWwwFinal
  | .httpToHttps, e => test_http_to_https_redirect e.httpWwwFirstHop
  | .nonWwwToWww, e => test_non_www_to_www_redirect e.httpsBareFirstHop
  | .hsts, e => test_hsts_header e.httpWwwFirstHop e.httpsWwwFinal

/-- Sequential pytest execution of a list of checks: each test invokes the
function-scoped `http_session` fixture, obtaining a fresh session, and
produces its outcome; the session-creation counter is threaded through. -/
def runChecks : List CheckId → Env → Nat → List (Session × Outcome) × Nat
  | [], _, c => ([], c)
  | t :: ts, env, c =>
    let sc := http_session c
    let rest := runChecks ts env sc.2
    ((sc.1, outcomeOf t env) :: rest.1, rest.2)

/-- The four checks in file order. -/
def suiteOrder : List CheckId :=
  [.liveness, .httpToHttps, .nonWwwToWww, .hsts]

/-- One full run of the suite. -/
def runSuite (env : Env) (c : Nat) : List (Session × Outcome) × Nat :=
  runChecks suiteOrder env c

/-- Two consecutive runs of the whole suite against the same responses,
returning the two outcome lists. -/
def runTwice (env : Env) (c : Nat) : List Outcome × List Outcome :=
  let r1 := runSuite env c
  let r2 := runSuite env r1.2
  (r1.1.map Prod.snd, r2.1.map Prod.snd)

/-- A well-behaved 301 first-hop response redirecting to
`https://www.kouidri.fr/`. -/
def goodRedirectResp : Response :=
  ⟨301, [("Location", "https://www.kouidri.fr/")]⟩

/-- A well-behaved final HTTPS response: 200 with an HSTS header carrying
`max-age`. -/
def goodFinalResp : Response :=
  ⟨200, [("Strict-Transport-Security", "max-age=31536000; includeSubDomains")]⟩

/-- The environment of the literal scenario in the spec: both redirects
are 301 to `https://www.kouidri.fr/` and the final HTTPS response is a 200
with HSTS. -/
def demoEnv : Env :=
  ⟨goodRedirectResp, goodRedirectResp, goodFinalResp⟩

/-- Whether an outcome is a failure of the scheme assertion. -/
def failsAtScheme : Outcome → Bool
  | .fail (.schemeNotHttps _) => true
  | _ => false

/-- A 301 first-hop response whose `Location` keeps the bare domain
(the `www` prefix was not added). -/
def bareLocResp : Response :=
  ⟨301, [("Location", "https://kouidri.fr/")]⟩

/-- A plaintext first-hop response that leaks an HSTS header. -/
def hstsLeakResp : Response :=
  ⟨301, [("Strict-Transport-Security", "max-age=1")]⟩

/-- A 301 first-hop response whose `Location` has an unbalanced square
bracket in its authority, on which `urlparse` raises `ValueError`. -/
def bracketResp : Response :=
  ⟨301, [("Location", "//[")]⟩

theorem leadsWith_append (s t : List Char) : leadsWith s (s ++ t) = true := by
  induction s with
  | nil => rfl
  | cons a s ih => simp [leadsWith, ih]

theorem occursIn_of_leadsWith (sub l : List Char) (h : leadsWith sub l = true) :
    occursIn sub l = true := by
  cases l with
  | nil =>
    cases sub with
    | nil => rfl
    | cons a s => simp [leadsWith] at h
  | cons c t => simp [occursIn, h]

theorem occursIn_append (x sub t : List Char) (h : occursIn sub t = true) :
    occursIn sub (x ++ t) = true := by
  induction x with
  | nil => simpa using h
  | cons c xs ih => simp [occursIn, ih]

theorem strContains_mid (x y z : String) : strContains (x ++ y ++ z) y = true := by
  unfold strContains
  have hd : (x ++ y ++ z).data = x.data ++ (y.data ++ z.data) := by
    simp [String.data_append]
  rw [hd]
  exact occursIn_append _ _ _ (occursIn_of_leadsWith _ _ (leadsWith_append _ _))

theorem strContains_append_right (x y sub : String) (h : strContains y sub = true) :
    strContains (x ++ y) sub = true := by
  unfold strContains at h ⊢
  rw [String.data_append]
  exact occursIn_append _ _ _ h

theorem liveness_pass_iff (r : Response) :
    test_liveness r = Outcome.pass ↔ r.status_code = 200 := by
  unfold test_liveness
  by_cases h : r.status_code = 200 <;> simp [h]

theorem http_redirect_pass_iff (r : Response) :
    test_http_to_https_redirect r = Outcome.pass ↔
      r.status_code = 301 ∧ ∃ loc p, r.getHeader "Location" = some loc ∧
        urlparse loc = Except.ok p ∧ p.scheme = "https" ∧
        p.netloc = WWW_DOMAIN ∧ p.path = "/" := by
  unfold test_http_to_https_redirect
  by_cases hs : r.status_code = 301
  · rw [if_pos hs]
    cases hloc : r.getHeader "Location" with
    | none => simp [hs]
    | some l =>
      cases hp : urlparse l with
      | error e => simp [hs, hp]
      | ok p =>
        by_cases h1 : p.scheme = "https"
        · by_cases h2 : p.netloc = WWW_DOMAIN
          · by_cases h3 : p.path = "/" <;> simp [hs, hp, h1, h2, h3]
          · simp [hs, hp, h1, h2]
        · simp [hs, hp, h1]
  · rw [if_neg hs]
    simp [hs]

theorem strContains_data (s sub : String) (x z : List Char)
    (h : s.data = x ++ sub.data ++ z) : strContains s sub = true := by
  unfold strContains
  rw [h, List.append_assoc]
  exact occursIn_append _ _ _ (occursIn_of_leadsWith _ _ (leadsWith_append _ _))

theorem strContains_pos2of5 (a b c d e : String) :
    strContains (a ++ b ++ c ++ d ++ e) b = true := by
  apply strContains_data _ _ a.data (c.data ++ d.data ++ e.data)
  simp [String.data_append]

theorem strContains_pos4of5 (a b c d e : String) :
    strContains (a ++ b ++ c ++ d ++ e) d = true := by
  apply strContains_data _ _ (a.data ++ b.data ++ c.data) e.data
  simp [String.data_append]

theorem hstsHttpsLeg_ne_onHttp (h2 : Response) (v : String) :
    hstsHttpsLeg h2 ≠ Outcome.fail (.hstsOnHttp v) := by
  unfold hstsHttpsLeg
  by_cases hs : h2.status_code = 200
  · rw [if_pos hs]
    cases hh : h2.getHeader "Strict-Transport-Security" with
    | none => simp
    | some w => by_cases hm : hasMaxAge w <;> simp [hm]
  · rw [if_neg hs]
    simp

theorem runChecks_outcomes (order : List CheckId) (env : Env) (c : Nat) :
    (runChecks order env c).1.map Prod.snd = order.map (fun t => outcomeOf t env) := by
  induction order generalizing c with
  | nil => rfl
  | cons t ts ih => simp [runChecks, ih]

theorem non_www_redirect_pass_iff (r : Response) :
    test_non_www_to_www_redirect r = Outcome.pass ↔
      r.status_code = 301 ∧ ∃ loc p, r.getHeader "Location" = some loc ∧
        urlparse loc = Except.ok p ∧ p.scheme = "https" ∧
        p.netloc = WWW_DOMAIN ∧ p.path = "/" := by
  unfold test_non_www_to_www_redirect
  by_cases hs : r.status_code = 301
  · rw [if_pos hs]
    cases hloc : r.getHeader "Location" with
    | none => simp [hs]
    | some l =>
      cases hp : urlparse l with
      | error e => simp [hs, hp]
      | ok p =>
        by_cases h1 : p.scheme = "https"
        · by_cases h2 : p.netloc = WWW_DOMAIN
          · by_cases h3 : p.path = "/" <;> simp [hs, hp, h1, h2, h3]
          · simp [hs, hp, h1, h2]
        · simp [hs, hp, h1]
  · rw [if_neg hs]
    simp [hs]

/-- C1: the HTTP-to-HTTPS redirect check passes exactly when the first-hop
response to GET `http://www.<domain>` has status 301, carries a `Location`
header, and that `Location` parses to scheme `https`, host exactly
`www.<domain>` and path `/`; any response violating one of these
conditions does not pass the check. -/
theorem httpToHttps_pass_characterization (r : Response) :
    test_http_to_https_redirect r = Outcome.pass ↔
      r.status_code = 301 ∧ ∃ loc p, r.getHeader "Location" = some loc ∧
        urlparse loc = Except.ok p ∧ p.scheme = "https" ∧
        p.netloc = WWW_DOMAIN ∧ p.path = "/" :=
  http_redirect_pass_iff r

theorem httpToHttps_pass_characterization_sat :
    test_http_to_https_redirect goodRedirectResp = Outcome.pass :=
  (httpToHttps_pass_characterization goodRedirectResp).mpr
    ⟨by decide, "https://www.kouidri.fr/", ⟨"https", "www.kouidri.fr", "/", "", "", ""⟩,
      by decide, by decide, by decide, by decide, by decide⟩

/-- C2: the non-www-to-www redirect check passes exactly when the
first-hop response to GET `https://<domain>` has status 301, carries a
`Location` header parsing to scheme `https`, host exactly `www.<domain>`
and path `/`; in particular a `Location` whose host is the bare domain
(www not added) makes the check fail. -/
theorem nonWwwToWww_pass_characterization :
    ∀ r : Response,
      (test_non_www_to_www_redirect r = Outcome.pass ↔
        r.status_code = 301 ∧ ∃ loc p, r.getHeader "Location" = some loc ∧
          urlparse loc = Except.ok p ∧ p.scheme = "https" ∧
          p.netloc = WWW_DOMAIN ∧ p.path = "/") ∧
      (∀ loc p, r.getHeader "Location" = some loc → urlparse loc = Except.ok p →
        p.netloc = NON_WWW_DOMAIN → test_non_www_to_www_redirect r ≠ Outcome.pass) := by
  intro r
  refine ⟨non_www_redirect_pass_iff r, ?_⟩
  intro loc p hloc hp hn hpass
  rcases (non_www_redirect_pass_iff r).mp hpass with
    ⟨hs, loc', p', hloc', hp', hsch, hnet, hpath⟩
  rw [hloc] at hloc'
  injection hloc' with he
  subst he
  rw [hp] at hp'
  injection hp' with he2
  subst he2
  rw [hn] at hnet
  exact absurd hnet (by decide)

theorem nonWwwToWww_pass_characterization_sat :
    test_non_www_to_www_redirect goodRedirectResp = Outcome.pass ∧
    test_non_www_to_www_redirect bareLocResp ≠ Outcome.pass :=
  ⟨((nonWwwToWww_pass_characterization goodRedirectResp).1).mpr
    ⟨by decide, "https://www.kouidri.fr/", ⟨"https", "www.kouidri.fr", "/", "", "", ""⟩,
      by decide, by decide, by decide, by decide, by decide⟩,
   (nonWwwToWww_pass_characterization bareLocResp).2 "https://kouidri.fr/"
    ⟨"https", "kouidri.fr", "/", "", "", ""⟩ (by decide) (by decide) (by decide)⟩

/-- C3: the HSTS check fails whenever the first-hop plaintext response
carries `Strict-Transport-Security`; it fails whenever the final HTTPS
response lacks that header or its value does not contain `max-age`
case-insensitively; and it passes when the plaintext response lacks the
header and the final HTTPS response is a 200 carrying the header with
`max-age`. -/
theorem hsts_check_characterization :
    (∀ h1 h2 : Response, ∀ v, h1.getHeader "Strict-Transport-Security" = some v →
      test_hsts_header h1 h2 = Outcome.fail (.hstsOnHttp v)) ∧
    (∀ h1 h2 : Response,
      (h2.getHeader "Strict-Transport-Security" = none ∨
        ∃ v, h2.getHeader "Strict-Transport-Security" = some v ∧ hasMaxAge v = false) →
      ∃ reason, test_hsts_header h1 h2 = Outcome.fail reason) ∧
    (∀ h1 h2 : Response, ∀ v, h1.getHeader "Strict-Transport-Security" = none →
      h2.status_code = 200 → h2.getHeader "Strict-Transport-Security" = some v →
      hasMaxAge v = true → test_hsts_header h1 h2 = Outcome.pass) := by
  refine ⟨?_, ?_, ?_⟩
  · intro h1 h2 v hv
    simp [test_hsts_header, hv]
  · intro h1 h2 hbad
    unfold test_hsts_header
    cases hh : h1.getHeader "Strict-Transport-Security" with
    | some v => exact ⟨.hstsOnHttp v, rfl⟩
    | none =>
      unfold hstsHttpsLeg
      by_cases hs : h2.status_code = 200
      · rw [if_pos hs]
        rcases hbad with hnone | ⟨v, hv, hm⟩
        · rw [hnone]
          exact ⟨.hstsMissing, rfl⟩
        · rw [hv]
          exact ⟨.hstsNoMaxAge v, by simp [hm]⟩
      · rw [if_neg hs]
        exact ⟨.hstsStatus h2.status_code, rfl⟩
  · intro h1 h2 v h1n hs hv hm
    simp [test_hsts_header, h1n, hstsHttpsLeg, hs, hv, hm]

theorem hsts_check_characterization_sat :
    test_hsts_header hstsLeakResp goodFinalResp =
      Outcome.fail (.hstsOnHttp "max-age=1") ∧
    test_hsts_header ⟨301, []⟩ goodFinalResp = Outcome.pass :=
  ⟨hsts_check_characterization.1 hstsLeakResp goodFinalResp "max-age=1" (by decide),
   hsts_check_characterization.2.2 ⟨301, []⟩ goodFinalResp
     "max-age=31536000; includeSubDomains" (by decide) (by decide) (by decide) (by decide)⟩

/-- C4: both redirect checks assert strict equality with 301: every
response whose status code differs from 301 (in particular 302, 307, 308)
fails at the status assertion. -/
theorem redirect_status_strict_301 (r : Response) (h : r.status_code ≠ 301) :
    test_http_to_https_redirect r = Outcome.fail (.redirectStatus r.status_code) ∧
    test_non_www_to_www_redirect r = Outcome.fail (.redirectStatus r.status_code) := by
  unfold test_http_to_https_redirect test_non_www_to_www_redirect
  rw [if_neg h, if_neg h]
  exact ⟨rfl, rfl⟩

theorem redirect_status_strict_301_sat :
    test_http_to_https_redirect ⟨302, [("Location", "https://www.kouidri.fr/")]⟩ =
      Outcome.fail (.redirectStatus 302) ∧
    test_non_www_to_www_redirect ⟨302, [("Location", "https://www.kouidri.fr/")]⟩ =
      Outcome.fail (.redirectStatus 302) :=
  redirect_status_strict_301 ⟨302, [("Location", "https://www.kouidri.fr/")]⟩ (by decide)

/-- C5: the liveness check passes if and only if the final status code of
GET `https://www.<domain>` (redirects followed) is 200; for any other
status it fails and its message reports the unexpected status code. -/
theorem liveness_status_200 (r : Response) :
    (test_liveness r = Outcome.pass ↔ r.status_code = 200) ∧
    (r.status_code ≠ 200 →
      test_liveness r = Outcome.fail (.livenessStatus r.status_code) ∧
      strContains (msgOf (.livenessStatus r.status_code)) (toString r.status_code) = true) := by
  refine ⟨liveness_pass_iff r, fun h => ⟨?_, ?_⟩⟩
  · unfold test_liveness
    rw [if_neg h]
  · exact strContains_mid "Unexpected response code: " (toString r.status_code) " (expected 200)"

theorem liveness_status_200_sat :
    test_liveness ⟨404, []⟩ = Outcome.fail (.livenessStatus 404) ∧
    strContains (msgOf (.livenessStatus 404)) "404" = true :=
  (liveness_status_200 ⟨404, []⟩).2 (by decide)

/-- C6 (counterexample): the four checks do not share a single session
object: under pytest's default function scope the `http_session` fixture
is invoked once per test, so on the literal scenario the suite creates
four distinct sessions, and already the first two checks use different
session objects. -/
theorem session_not_shared_counterexample :
    (runSuite demoEnv 0).1.map (fun x => x.1) =
      [⟨0, true⟩, ⟨1, true⟩, ⟨2, true⟩, ⟨3, true⟩] ∧
    (⟨0, true⟩ : Session) ≠ ⟨1, true⟩ := by
  exact ⟨by decide, by decide⟩

/-- C6 (amended): each of the four checks obtains its own transport
session from the function-scoped `http_session` fixture; every session is
created with TLS certificate verification enabled, and the four session
objects are pairwise distinct rather than one shared object. -/
theorem session_per_check_verified (env : Env) (c : Nat) :
    (runSuite env c).1.map (fun x => x.1) =
      [⟨c, true⟩, ⟨c + 1, true⟩, ⟨c + 2, true⟩, ⟨c + 3, true⟩] ∧
    List.Pairwise (fun a b : Session => a.id ≠ b.id)
      [(⟨c, true⟩ : Session), ⟨c + 1, true⟩, ⟨c + 2, true⟩, ⟨c + 3, true⟩] ∧
    ∀ s ∈ [(⟨c, true⟩ : Session), ⟨c + 1, true⟩, ⟨c + 2, true⟩, ⟨c + 3, true⟩],
      s.verify = true := by
  refine ⟨rfl, ?_, ?_⟩
  · simp
  · intro s hs
    simp at hs
    rcases hs with h | h | h | h <;> subst h <;> rfl

/-- C7 (counterexample): the failure message of the missing-`Location`
assertion is the constant string `Location header missing`: it contains
neither a rendering of the observed value (`None`) nor an expected-value
clause, refuting the claim that every assertion message carries both the
actual and the expected value. -/
theorem assertion_message_counterexample :
    test_http_to_https_redirect ⟨301, []⟩ = Outcome.fail .locationMissing ∧
    msgOf .locationMissing = "Location header missing" ∧
    strContains (msgOf .locationMissing) "None" = false ∧
    strContains (msgOf .locationMissing) "expected" = false := by
  decide

/-- C7 (amended): every value-comparing assertion fails with a message
containing both the observed value and the expected value, while the two
header-presence assertions fail with fixed messages that only name the
missing header. -/
theorem assertion_messages_actual_expected :
    (∀ a : Nat, strContains (msgOf (.livenessStatus a)) (toString a) = true ∧
      strContains (msgOf (.livenessStatus a)) "200" = true) ∧
    (∀ a : Nat, strContains (msgOf (.redirectStatus a)) (toString a) = true ∧
      strContains (msgOf (.redirectStatus a)) "301" = true) ∧
    (∀ s : String, strContains (msgOf (.schemeNotHttps s)) s = true ∧
      strContains (msgOf (.schemeNotHttps s)) "HTTPS" = true) ∧
    (∀ n : String, strContains (msgOf (.domainChanged n)) n = true ∧
      strContains (msgOf (.domainChanged n)) WWW_DOMAIN = true) ∧
    (∀ n : String, strContains (msgOf (.domainNotWww n)) n = true ∧
      strContains (msgOf (.domainNotWww n)) WWW_DOMAIN = true) ∧
    (∀ p : String, strContains (msgOf (.pathChanged p)) p = true ∧
      strContains (msgOf (.pathChanged p)) "/" = true) ∧
    (∀ v : String, strContains (msgOf (.hstsOnHttp v)) v = true ∧
      strContains (msgOf (.hstsOnHttp v)) "absent" = true) ∧
    (∀ a : Nat, strContains (msgOf (.hstsStatus a)) (toString a) = true ∧
      strContains (msgOf (.hstsStatus a)) "200" = true) ∧
    (∀ v : String, strContains (msgOf (.hstsNoMaxAge v)) v = true ∧
      strContains (msgOf (.hstsNoMaxAge v)) "max-age" = true) ∧
    msgOf .locationMissing = "Location header missing" ∧
    msgOf .hstsMissing = "HSTS header missing on HTTPS" := by
  refine ⟨?_, ?_, ?_, ?_, ?_, ?_, ?_, ?_, ?_, rfl, rfl⟩
  · intro a
    exact ⟨strContains_mid _ _ _, strContains_append_right _ _ _ (by decide)⟩
  · intro a
    exact ⟨strContains_mid _ _ _, strContains_append_right _ _ _ (by decide)⟩
  · intro s
    exact ⟨strContains_mid _ _ _, strContains_append_right _ _ _ (by decide)⟩
  · intro n
    exact ⟨strContains_pos2of5 _ _ _ _ _, strContains_pos4of5 _ _ _ _ _⟩
  · intro n
    exact ⟨strContains_pos2of5 _ _ _ _ _, strContains_pos4of5 _ _ _ _ _⟩
  · intro p
    exact ⟨strContains_mid _ _ _, strContains_append_right _ _ _ (by decide)⟩
  · intro v
    exact ⟨strContains_mid _ _ _, strContains_append_right _ _ _ (by decide)⟩
  · intro a
    exact ⟨strContains_mid _ _ _, strContains_append_right _ _ _ (by decide)⟩
  · intro v
    exact ⟨strContains_mid _ _ _, strContains_append_right _ _ _ (by decide)⟩

/-- C8: the outcome of every check is a deterministic, order-insensitive
function of the server responses alone: two consecutive runs of the whole
suite produce identical outcome lists, and running any list of checks in
any order from any session counter yields, for each check, exactly its
outcome on the responses. -/
theorem checks_idempotent_order_insensitive (env : Env) (c : Nat) :
    (runTwice env c).1 = (runTwice env c).2 ∧
    ∀ (order : List CheckId) (k : Nat),
      (runChecks order env k).1.map Prod.snd = order.map (fun t => outcomeOf t env) := by
  constructor
  · simp [runTwice, runSuite, runChecks_outcomes]
  · intro order k
    exact runChecks_outcomes order env k

/-- C9 (counterexample): a present `Location` that is not an absolute
https URL need not fail at the scheme assertion: on `Location: //[`
CPython's `urlparse` raises `ValueError: Invalid IPv6 URL`, so the check
errors before reaching the scheme assertion. -/
theorem location_scheme_counterexample :
    Response.getHeader bracketResp "Location" = some "//[" ∧
    test_http_to_https_redirect bracketResp = Outcome.error "Invalid IPv6 URL" ∧
    failsAtScheme (test_http_to_https_redirect bracketResp) = false := by
  decide

/-- C9 (amended): a present `Location` that `urlparse` accepts with a
scheme other than `https` (for example the relative path `/`, parsing to
empty scheme and host) fails both redirect checks at the scheme assertion,
never at header presence; a `Location` with unbalanced brackets in its
authority instead raises `ValueError` inside `urlparse`; the checks pass
only for `Location` values parsing as absolute URLs with scheme `https`
and host `www.<domain>`. -/
theorem location_scheme_assertion :
    (∀ (r : Response) (loc : String) (p : ParseResult),
      r.status_code = 301 → r.getHeader "Location" = some loc →
      urlparse loc = Except.ok p → p.scheme ≠ "https" →
      test_http_to_https_redirect r = Outcome.fail (.schemeNotHttps p.scheme) ∧
      test_non_www_to_www_redirect r = Outcome.fail (.schemeNotHttps p.scheme)) ∧
    (∀ r : Response,
      test_http_to_https_redirect r = Outcome.pass ∨
        test_non_www_to_www_redirect r = Outcome.pass →
      ∃ loc p, r.getHeader "Location" = some loc ∧ urlparse loc = Except.ok p ∧
        p.scheme = "https" ∧ p.netloc = WWW_DOMAIN) := by
  constructor
  · intro r loc p hs hloc hp hns
    constructor
    · simp [test_http_to_https_redirect, hs, hloc, hp, hns]
    · simp [test_non_www_to_www_redirect, hs, hloc, hp, hns]
  · intro r hpass
    rcases hpass with h | h
    · rcases (http_redirect_pass_iff r).mp h with ⟨_, loc, p, hloc, hp, h1, h2, _⟩
      exact ⟨loc, p, hloc, hp, h1, h2⟩
    · rcases (non_www_redirect_pass_iff r).mp h with ⟨_, loc, p, hloc, hp, h1, h2, _⟩
      exact ⟨loc, p, hloc, hp, h1, h2⟩

theorem location_scheme_assertion_sat :
    test_http_to_https_redirect ⟨301, [("Location", "/")]⟩ =
      Outcome.fail (.schemeNotHttps "") ∧
    test_non_www_to_www_redirect ⟨301, [("Location", "/")]⟩ =
      Outcome.fail (.schemeNotHttps "") :=
  location_scheme_assertion.1 ⟨301, [("Location", "/")]⟩ "/"
    ⟨"", "", "/", "", "", ""⟩ (by decide) (by decide) (by decide) (by decide)

/-- C10: the plaintext leg of the HSTS check constrains only the presence
of `Strict-Transport-Security`, not the status code: for any first-hop
response lacking the header, the outcome is unchanged under any other
status code, and the check never fails at the plaintext-leg assertion. -/
theorem hsts_http_leg_ignores_status :
    ∀ (s s' : Nat) (hdrs : List (String × String)) (h2 : Response),
      (Response.mk s hdrs).getHeader "Strict-Transport-Security" = none →
      test_hsts_header ⟨s, hdrs⟩ h2 = test_hsts_header ⟨s', hdrs⟩ h2 ∧
      ∀ v, test_hsts_header ⟨s, hdrs⟩ h2 ≠ Outcome.fail (.hstsOnHttp v) := by
  intro s s' hdrs h2 h
  have h' : (Response.mk s' hdrs).getHeader "Strict-Transport-Security" = none := h
  constructor
  · simp [test_hsts_header, h, h']
  · intro v
    simp only [test_hsts_header, h]
    exact hstsHttpsLeg_ne_onHttp h2 v

theorem hsts_http_leg_ignores_status_sat :
    test_hsts_header ⟨200, []⟩ goodFinalResp = test_hsts_header ⟨301, []⟩ goodFinalResp :=
  (hsts_http_leg_ignores_status 200 301 [] goodFinalResp (by decide)).1
